import Mathlib

/-!
Verification of the dynamic-ads-content repository: a campaign generation
pipeline (interest matching, trend selection, prompt optimization, image
generation orchestration, result mapping) with a React frontend.

The backend orchestrator itself is not part of the source tree (only its
README, API-usage documentation, and the frontend caller are), so the
pipeline is modelled from the specification; the frontend components
(`App`, `ImageUpload`, `CampaignTab`, `UserTab`) are embedded from their
JSX source.
-/

namespace Ads

/-! ### Data model (spec §3) -/

/-- UserProfile: identity plus ordered interest list (spec §3). -/
structure UserProfile where
  id : Nat
  interests : List String
deriving DecidableEq, Repr

/-- TrendRecord: catalog entry with category, interest set, popularity (spec §3). -/
structure TrendRecord where
  category : String
  interests : List String
  popularity : Nat
deriving DecidableEq, Repr

/-- MatchRecord: one semantic match of a user interest against a trend (spec §3). -/
structure MatchRecord where
  user_id : Nat
  trend_category : String
  matched_interest : String
  confidence_score : Nat
deriving DecidableEq, Repr

/-- Campaign brief: product description, theme, style (spec §6 `brief`). -/
structure Brief where
  description : String
  theme : String
  style : String
deriving DecidableEq, Repr

/-- Budgets for paid calls; defaults from `MAX_TRENDS_FOR_OPTIMIZATION = 5`
and `MAX_IMAGES_PER_CAMPAIGN = 5` in the API-usage documentation. -/
structure Budgets where
  maxTrends : Nat := 5
  maxImages : Nat := 5
deriving DecidableEq, Repr

/-- Hard image cap documented in the repository (`MAX_IMAGES_PER_CAMPAIGN = 5`). -/
def MAX_IMAGES_PER_CAMPAIGN : Nat := 5

/-- Hard optimization cap documented in the repository
(`MAX_TRENDS_FOR_OPTIMIZATION = 5`). -/
def MAX_TRENDS_FOR_OPTIMIZATION : Nat := 5

/-! ### Interest Matcher (spec §4.1)

Modelled from the spec: the backend `prompts/interest_matcher.py` /
`services/trend_matcher.py` are not in the source tree.  The matcher issues
one independent request per user; a failing request yields an empty
MatchRecord set for that user only. -/

/-- The MatchRecord set the matcher produces for one user: the collaborator
response on success, empty on failure (spec §4.1). -/
def matchedRecords (matchFn : UserProfile → Except String (List MatchRecord))
    (u : UserProfile) : List MatchRecord :=
  match matchFn u with
  | .ok recs => recs
  | .error _ => []

/-- Modelled from the spec: per-user matching stage, one independent call per
user (spec §4.1); the result keeps the per-user grouping for the mapper. -/
def runMatcher (matchFn : UserProfile → Except String (List MatchRecord))
    (users : List UserProfile) : List (Nat × List MatchRecord) :=
  users.map (fun u => (u.id, matchedRecords matchFn u))

/-! ### Trend Selector (spec §4.2)

Modelled from the spec: aggregates MatchRecords by trend category, scores
`compositeScore = matchCount * 10 + popularity` (the spec's documented
monotone weighting, §9), excludes zero-match trends, sorts descending by
composite score with ties broken by matchCount then catalog order, and
truncates to the trend budget. -/

/-- Aggregated per-trend candidate built by the Selector. -/
structure TrendCand where
  category : String
  popularity : Nat
  catalogIdx : Nat
  matchCount : Nat
  records : List MatchRecord
deriving DecidableEq, Repr

/-- Composite score: matchCount weighted above popularity (spec §4.2, §9). -/
def compositeScore (matchCount popularity : Nat) : Nat :=
  matchCount * 10 + popularity

/-- Distinct users with at least one MatchRecord for the category (spec §4.2). -/
def usersFor (cat : String) (records : List MatchRecord) : List Nat :=
  ((records.filter (fun r => r.trend_category == cat)).map
    (fun r => r.user_id)).eraseDups

/-- Modelled from the spec: group MatchRecords by catalog trend, computing the
distinct-user match count per trend (spec §4.2). -/
def aggregate (catalog : List TrendRecord) (records : List MatchRecord) :
    List TrendCand :=
  catalog.enum.map (fun p =>
    { category := p.2.category
      popularity := p.2.popularity
      catalogIdx := p.1
      matchCount := (usersFor p.2.category records).length
      records := records.filter (fun r => r.trend_category == p.2.category) })

/-- `beats a b`: `a` is ranked strictly before `b` — higher composite score,
ties broken by higher matchCount, then by earlier catalog position (spec §4.2). -/
def beats (a b : TrendCand) : Prop :=
  compositeScore b.matchCount b.popularity < compositeScore a.matchCount a.popularity ∨
  (compositeScore a.matchCount a.popularity = compositeScore b.matchCount b.popularity ∧
    (b.matchCount < a.matchCount ∨
      (a.matchCount = b.matchCount ∧ a.catalogIdx < b.catalogIdx)))

instance : DecidableRel beats := fun a b => by
  unfold beats; exact inferInstance

/-- Two candidates agreeing on every ranking key. -/
def sameRankKey (a b : TrendCand) : Prop :=
  compositeScore a.matchCount a.popularity = compositeScore b.matchCount b.popularity ∧
  a.matchCount = b.matchCount ∧ a.catalogIdx = b.catalogIdx

/-- The non-strict ranking relation used to sort: ranked before or key-equal. -/
def rge (a b : TrendCand) : Prop := beats a b ∨ sameRankKey a b

instance : DecidableRel rge := fun a b => by
  unfold rge sameRankKey; exact inferInstance

instance : IsTotal TrendCand rge := by
  constructor
  intro a b
  unfold rge beats sameRankKey compositeScore
  omega

instance : IsTrans TrendCand rge := by
  constructor
  intro a b c hab hbc
  unfold rge beats sameRankKey compositeScore at hab hbc ⊢
  omega

/-- The Selector's ranking: stable insertion sort by the descending composite
ordering (spec §4.2, deterministic, no randomness). -/
def rankTrends (cands : List TrendCand) : List TrendCand :=
  List.insertionSort rge cands

/-- Modelled from the spec: full Selector — aggregate, drop zero-match trends,
rank, truncate to the trend budget before any paid call (spec §4.2, §5). -/
def selectTrends (catalog : List TrendRecord) (records : List MatchRecord)
    (maxTrends : Nat) : List TrendCand :=
  (rankTrends ((aggregate catalog records).filter
    (fun c => 0 < c.matchCount))).take maxTrends

/-- Two candidates from distinct catalog positions (the aggregation gives one
candidate per catalog entry, so catalog index identifies a trend). -/
def keyNe (a b : TrendCand) : Prop := a.catalogIdx ≠ b.catalogIdx

instance : DecidableRel keyNe := fun a b => by
  unfold keyNe; exact inferInstance

/-- Position of the candidate with catalog index `k` in a ranked list. -/
def posKey (s : List TrendCand) (k : Nat) : Nat :=
  (s.takeWhile (fun c => c.catalogIdx != k)).length

/-- Rank of the trend with catalog index `k` in the Selector's full ranking. -/
def rankOf (cands : List TrendCand) (k : Nat) : Nat :=
  posKey (rankTrends cands) k

/-! ### Prompt Optimizer (spec §4.3)

Modelled from the spec: one text-generation call per selected trend, capped by
the optimization budget (the Selector already truncated); a failed call skips
the trend for image generation, not fatal. -/

/-- Modelled from the spec: optimizer stage — one call per selected trend,
recording the outcome per trend (spec §4.3). -/
def runOptimizer (optFn : TrendCand → Brief → Except String String)
    (brief : Brief) (selected : List TrendCand) :
    List (TrendCand × Option String) :=
  selected.map (fun t => (t, (optFn t brief).toOption))

/-! ### Image Generation Orchestrator (spec §4.4)

Modelled from the spec: per-job state machine
Pending → Submitted → Polling → (Ready | Moderated | Failed | TimedOut),
polled at a fixed 1-second interval against a fixed 60-second deadline
measured from submission (backend README: "1-second intervals with 60-second
timeout"). -/

/-- Job status vocabulary (spec §4.4 state machine). -/
inductive JobStatus where
  | Pending
  | Submitted
  | Polling
  | Ready
  | Moderated
  | Failed
  | TimedOut
deriving DecidableEq, Repr

/-- Terminal statuses: no further transition occurs (spec glossary). -/
def JobStatus.isTerminal : JobStatus → Bool
  | .Ready => true
  | .Moderated => true
  | .Failed => true
  | .TimedOut => true
  | _ => false

/-- Outcome of one `PollImageJob` call (spec §6 status vocabulary). -/
inductive PollOutcome where
  | running
  | ready (url : String)
  | moderated (msg : String)
  | failure (msg : String)
deriving DecidableEq, Repr

/-- GenerationJob record (spec §3). -/
structure GenerationJob where
  trend_category : String
  prompt : String
  handle : Option Nat
  status : JobStatus
  imageUrl : Option String
  message : Option String
  pollCount : Nat
deriving DecidableEq, Repr

/-- Polling interval in seconds (backend README: 1-second intervals). -/
def POLL_INTERVAL : Nat := 1

/-- Polling deadline in seconds from submission (backend README: 60-second
timeout). -/
def POLL_DEADLINE : Nat := 60

/-- Seconds elapsed since submission, at one poll per interval. -/
def elapsedSeconds (job : GenerationJob) : Nat :=
  job.pollCount * POLL_INTERVAL

/-- Modelled from the spec: the per-job polling loop. Each iteration issues one
poll; a `running` answer re-polls after the fixed interval, any other answer is
terminal, and exhausting the deadline marks the job TimedOut (spec §4.4). -/
def pollLoop (pollFn : Nat → Nat → PollOutcome) (handle : Nat) :
    Nat → GenerationJob → GenerationJob
  | 0, job => { job with status := .TimedOut, message := some "Image generation timed out" }
  | fuel + 1, job =>
    match pollFn handle job.pollCount with
    | .running =>
      pollLoop pollFn handle fuel
        { job with status := .Polling, pollCount := job.pollCount + 1 }
    | .ready url =>
      { job with status := .Ready, imageUrl := some url, pollCount := job.pollCount + 1 }
    | .moderated msg =>
      { job with status := .Moderated, message := some msg, pollCount := job.pollCount + 1 }
    | .failure msg =>
      { job with status := .Failed, message := some msg, pollCount := job.pollCount + 1 }

/-- Modelled from the spec: submit one asynchronous job and drive it to a
terminal state — submit failure is terminal Failed, otherwise the job is
polled until terminal or deadline (spec §4.4). -/
def runJob (submitFn : String → String → Except String Nat)
    (pollFn : Nat → Nat → PollOutcome) (baseImage prompt cat : String) :
    GenerationJob :=
  let fresh : GenerationJob :=
    { trend_category := cat, prompt := prompt, handle := none,
      status := .Pending, imageUrl := none, message := none, pollCount := 0 }
  match submitFn baseImage prompt with
  | .error e => { fresh with status := .Failed, message := some e }
  | .ok h =>
    pollLoop pollFn h (POLL_DEADLINE / POLL_INTERVAL)
      { fresh with handle := some h, status := .Submitted }

/-! ### Result Mapper (spec §4.5) -/

/-- One per-user image descriptor in the final result (spec §6). -/
structure ImageEntry where
  trend_category : String
  interest : String
  image_url : Option String
  status : JobStatus
  message : Option String
  prompt_used : String
deriving DecidableEq, Repr

/-- Per-user slice of the campaign result (spec §3, §6). -/
structure UserResult where
  user_id : Nat
  matched_interests : List MatchRecord
  generated_images : List ImageEntry
deriving DecidableEq, Repr

/-- Aggregate API-usage counters (spec §6 `api_usage`). -/
structure ApiUsage where
  matcher_calls : Nat
  optimizer_calls : Nat
  image_calls : Nat
  image_limit : Nat
  optimization_limit : Nat
deriving DecidableEq, Repr

/-- The final campaign result (spec §3, §6). -/
structure CampaignResult where
  campaign_theme : String
  selected_trends : List TrendCand
  jobs : List GenerationJob
  api_usage : ApiUsage
  results : List UserResult
deriving DecidableEq, Repr

/-- Entry a terminal job contributes to one matching user: the image URL when
Ready, otherwise a placeholder carrying the terminal status and message
(spec §4.5). -/
def entryFor (job : GenerationJob) (rec : MatchRecord) : ImageEntry :=
  { trend_category := job.trend_category
    interest := rec.matched_interest
    image_url := job.imageUrl
    status := job.status
    message := job.message
    prompt_used := job.prompt }

/-- Modelled from the spec: join terminal jobs back to one user via the
MatchRecords that justified each trend (spec §4.5). -/
def userResultFor (perUser : Nat × List MatchRecord)
    (jobs : List GenerationJob) : UserResult :=
  { user_id := perUser.1
    matched_interests := perUser.2
    generated_images := jobs.filterMap (fun job =>
      match perUser.2.find? (fun r => r.trend_category == job.trend_category) with
      | some r => some (entryFor job r)
      | none => none) }

/-! ### RunCampaign (spec §6) -/

/-- The opaque external collaborators (spec §6). -/
structure Collaborators where
  matchFn : UserProfile → Except String (List MatchRecord)
  optFn : TrendCand → Brief → Except String String
  submitFn : String → String → Except String Nat
  pollFn : Nat → Nat → PollOutcome

/-- Modelled from the spec: the full synchronous pipeline
Matcher → Selector → Optimizer → Image Orchestrator → Result Mapper, with
budget truncation strictly before any optimizer or image call (spec §2, §5, §6). -/
def runCampaign (collab : Collaborators) (baseImage : String) (brief : Brief)
    (users : List UserProfile) (catalog : List TrendRecord)
    (budgets : Budgets) : CampaignResult :=
  let perUser := runMatcher collab.matchFn users
  let allRecords := (perUser.map Prod.snd).flatten
  let selected := selectTrends catalog allRecords budgets.maxTrends
  let optimized := runOptimizer collab.optFn brief selected
  let optSuccess := optimized.filterMap (fun p => p.2.map (fun s => (p.1, s)))
  let toSubmit := optSuccess.take budgets.maxImages
  let jobs := toSubmit.map (fun p =>
    runJob collab.submitFn collab.pollFn baseImage p.2 p.1.category)
  { campaign_theme := brief.theme
    selected_trends := selected
    jobs := jobs
    api_usage :=
      { matcher_calls := users.length
        optimizer_calls := optimized.length
        image_calls := jobs.length
        image_limit := budgets.maxImages
        optimization_limit := budgets.maxTrends }
    results := perUser.map (fun pu => userResultFor pu jobs) }

/-! ### Frontend embedding (from the JSX source)

`App` (src/unnamed/part_001 and the extended variant in src/unnamed/part_005),
`ImageUpload` (src/frontend/src/components/ImageUpload.jsx),
`CampaignTab` (src/frontend/src/components/tabs/CampaignTab.jsx),
`UserTab` (src/unnamed/part_000 / part_005).
JS `null`/`undefined` are both embedded as `Option.none`; a JS `File` is
embedded as its opaque name. -/

namespace Frontend

/-- A user result row of the backend response, as read by the frontend. -/
structure FEUserResult where
  user_id : Nat
  matched_interests : List Ads.MatchRecord
  generated_images : List Ads.ImageEntry
deriving DecidableEq, Repr

/-- The backend response shape read by `App`; `results` is optional because
the JSX guards `campaignResult?.results` against its absence. -/
structure FECampaignResult where
  results : Option (List FEUserResult)
deriving DecidableEq, Repr

/-- `getUserResult` from `App` (src/unnamed/part_005 lines 194-197,
src/unnamed/part_001 lines 73-76):
`if (!campaignResult?.results) return null;`
`return campaignResult.results.find(r => r.user_id === userId)`. -/
def getUserResult (campaignResult : Option FECampaignResult) (userId : Nat) :
    Option FEUserResult :=
  match campaignResult with
  | none => none
  | some cr =>
    match cr.results with
    | none => none
    | some rs => rs.find? (fun r => r.user_id == userId)

/-- The `App` component state (useState hooks of src/unnamed/part_005). -/
structure AppState where
  activeTab : String
  uploadedImage : Option String
  campaignResult : Option FECampaignResult
  isLoading : Bool
  error : Option String
  users : List Ads.UserProfile
  productDescription : String
  campaignTheme : String
  stylePreset : String
deriving DecidableEq, Repr

/-- `handleImageUpload` from `App` (src/unnamed/part_005 lines 158-163,
src/unnamed/part_001 lines 37-42): stores the file and resets the previous
campaign result and error. -/
def handleImageUpload (file : String) (s : AppState) : AppState :=
  { s with uploadedImage := some file, campaignResult := none, error := none }

/-- `isFormValid` from `CampaignTab`
(src/frontend/src/components/tabs/CampaignTab.jsx line 16):
`uploadedImage && productDescription && campaignTheme`, with JS truthiness of
a file and of nonempty strings. -/
def isFormValid (uploadedImage : Option String)
    (productDescription campaignTheme : String) : Bool :=
  uploadedImage.isSome && !productDescription.isEmpty && !campaignTheme.isEmpty

/-- Component-local state of `ImageUpload`
(src/frontend/src/components/ImageUpload.jsx): the data-URL preview, the
drag flag, and the file input's value. -/
structure ImageUploadState where
  preview : Option String
  isDragging : Bool
  fileInputValue : String
deriving DecidableEq, Repr

/-- Callbacks `ImageUpload` can emit to its parent. -/
inductive UploadCallback where
  | onImageUpload (file : String)
deriving DecidableEq, Repr

/-- `handleRemove` from `ImageUpload`
(src/frontend/src/components/ImageUpload.jsx lines 56-61): clears the preview
and the file input's value; the returned list holds the callbacks invoked
(none). -/
def handleRemove (s : ImageUploadState) : ImageUploadState × List UploadCallback :=
  ({ s with preview := none, fileInputValue := "" }, [])

/-- Effect of a list of emitted callbacks on the parent `App` state. -/
def applyCallbacks (cbs : List UploadCallback) (s : AppState) : AppState :=
  cbs.foldl (fun st cb =>
    match cb with
    | .onImageUpload f => handleImageUpload f st) s

/-- What `UserTab` renders for one entry of `generated_images`. -/
inductive AdCard where
  | generated (url : String) (cat : String)
  | placeholder (cat : String) (message : String) (statusText : String)
deriving DecidableEq, Repr

/-- Status text shown in the placeholder small print. -/
def statusText : Ads.JobStatus → String
  | .Pending => "Pending"
  | .Submitted => "Submitted"
  | .Polling => "Polling"
  | .Ready => "Ready"
  | .Moderated => "Moderated"
  | .Failed => "Failed"
  | .TimedOut => "TimedOut"

/-- Ad-card rendering from `UserTab` (src/unnamed/part_000 lines 75-105):
`image.image_url ?` an image card `:` a placeholder showing the message and
status instead of an image. -/
def renderAdCard (image : Ads.ImageEntry) : AdCard :=
  match image.image_url with
  | some url => .generated url image.trend_category
  | none =>
    .placeholder image.trend_category
      (image.message.getD "Image generation in progress...")
      (statusText image.status)

end Frontend

/-! ### Concrete demonstration inputs (used by witnesses and scenarios) -/

/-- Three-trend demonstration catalog. -/
def demoCatalog : List TrendRecord :=
  [⟨"T1", ["i1"], 10⟩, ⟨"T2", ["i2"], 9⟩, ⟨"T3", ["i3"], 8⟩]

/-- Three demonstration users. -/
def demoUsers : List UserProfile :=
  [⟨1, ["i1"]⟩, ⟨2, ["i2"]⟩, ⟨3, ["i3"]⟩]

/-- Demonstration matcher responses: user `k` (k = 1, 2, 3) matches trend
`Tk`; any other user matches nothing. -/
def demoMatchFn (u : UserProfile) : Except String (List MatchRecord) :=
  Except.ok (if u.id == 1 then [⟨1, "T1", "i1", 90⟩]
             else if u.id == 2 then [⟨2, "T2", "i2", 80⟩]
             else if u.id == 3 then [⟨3, "T3", "i3", 70⟩]
             else [])

/-- Demonstration optimizer that fails on trend `T2` only. -/
def demoOptFnFailT2 (t : TrendCand) (_ : Brief) : Except String String :=
  if t.category == "T2" then Except.error "optimization failed"
  else Except.ok ("P-" ++ t.category)

/-- Demonstration optimizer that succeeds on every trend. -/
def demoOptFnOk (t : TrendCand) (_ : Brief) : Except String String :=
  Except.ok ("P-" ++ t.category)

/-- Demonstration brief. -/
def demoBrief : Brief := ⟨"desc", "theme", "style"⟩

/-- Collaborators where every stage succeeds immediately. -/
def demoCollabOk : Collaborators :=
  { matchFn := demoMatchFn
    optFn := demoOptFnOk
    submitFn := fun _ _ => Except.ok 7
    pollFn := fun _ _ => PollOutcome.ready "http://img" }

/-- Collaborators where the optimizer fails on `T2` (Scenario D). -/
def demoCollabFailT2 : Collaborators :=
  { demoCollabOk with optFn := demoOptFnFailT2 }

/-- Collaborators whose poll answer is always `running` (Scenario C). -/
def demoCollabRunning : Collaborators :=
  { demoCollabOk with pollFn := (fun _ _ => PollOutcome.running) }

/-- The job produced for trend `T1` in the all-success demonstration run. -/
def demoJobT1 : GenerationJob :=
  { trend_category := "T1", prompt := "P-T1", handle := some 7,
    status := .Ready, imageUrl := some "http://img", message := none,
    pollCount := 1 }

/-- Demonstration users extended by user 4, who matches nothing. -/
def demoUsersZ : List UserProfile := demoUsers ++ [⟨4, []⟩]

/-- The timed-out job for trend `T1` in the always-running demonstration run. -/
def demoJobRunT1 : GenerationJob :=
  { trend_category := "T1", prompt := "P-T1", handle := some 7,
    status := .TimedOut, imageUrl := none,
    message := some "Image generation timed out", pollCount := 60 }

/-- The image entry user 1 receives in the always-running demonstration run. -/
def demoEntryT1 : ImageEntry :=
  { trend_category := "T1", interest := "i1", image_url := none,
    status := .TimedOut, message := some "Image generation timed out",
    prompt_used := "P-T1" }

/-- User 1's result in the always-running demonstration run. -/
def demoUR1 : UserResult :=
  { user_id := 1, matched_interests := [⟨1, "T1", "i1", 90⟩],
    generated_images := [demoEntryT1] }

/-! ### Helper lemmas on the job state machine -/

theorem pollLoop_terminal (pollFn : Nat → Nat → PollOutcome) (h : Nat) :
    ∀ fuel job, ((pollLoop pollFn h fuel job).status.isTerminal = true) := by
  intro fuel
  induction fuel with
  | zero => intro job; simp [pollLoop, JobStatus.isTerminal]
  | succ n ih =>
    intro job
    unfold pollLoop
    split <;> first
      | exact ih _
      | simp [JobStatus.isTerminal]

theorem runJob_terminal (submitFn : String → String → Except String Nat)
    (pollFn : Nat → Nat → PollOutcome) (baseImage prompt cat : String) :
    (runJob submitFn pollFn baseImage prompt cat).status.isTerminal = true := by
  unfold runJob
  cases submitFn baseImage prompt with
  | error e => simp [JobStatus.isTerminal]
  | ok h => simpa using pollLoop_terminal pollFn h _ _

theorem terminal_status_cases (s : JobStatus) (hs : s.isTerminal = true) :
    s = .Ready ∨ s = .Moderated ∨ s = .Failed ∨ s = .TimedOut := by
  cases s <;> simp_all [JobStatus.isTerminal]

theorem runCampaign_mem_jobs_terminal (collab : Collaborators)
    (baseImage : String) (brief : Brief) (users : List UserProfile)
    (catalog : List TrendRecord) (budgets : Budgets) :
    ∀ j ∈ (runCampaign collab baseImage brief users catalog budgets).jobs,
      j.status.isTerminal = true := by
  intro j hj
  simp only [runCampaign, List.mem_map] at hj
  obtain ⟨p, _, rfl⟩ := hj
  exact runJob_terminal _ _ _ _ _

theorem pollLoop_running_pollCount (pollFn : Nat → Nat → PollOutcome)
    (hrun : ∀ h n, pollFn h n = .running) (h : Nat) :
    ∀ fuel job, (pollLoop pollFn h fuel job).status = .TimedOut ∧
      (pollLoop pollFn h fuel job).pollCount = job.pollCount + fuel := by
  intro fuel
  induction fuel with
  | zero => intro job; simp [pollLoop]
  | succ n ih =>
    intro job
    unfold pollLoop
    rw [hrun h job.pollCount]
    have hstep := ih { job with status := .Polling, pollCount := job.pollCount + 1 }
    refine ⟨hstep.1, ?_⟩
    rw [hstep.2]
    simp only []
    omega

theorem runJob_running_timesOut (submitFn : String → String → Except String Nat)
    (pollFn : Nat → Nat → PollOutcome) (baseImage prompt cat : String)
    (h : Nat) (hrun : ∀ hd n, pollFn hd n = .running)
    (hsub : submitFn baseImage prompt = .ok h) :
    (runJob submitFn pollFn baseImage prompt cat).status = .TimedOut ∧
    elapsedSeconds (runJob submitFn pollFn baseImage prompt cat) = POLL_DEADLINE := by
  unfold runJob
  rw [hsub]
  have hloop := pollLoop_running_pollCount pollFn hrun h (POLL_DEADLINE / POLL_INTERVAL)
    { trend_category := cat, prompt := prompt, handle := some h,
      status := .Submitted, imageUrl := none, message := none, pollCount := 0 }
  refine ⟨hloop.1, ?_⟩
  unfold elapsedSeconds
  rw [hloop.2]
  simp [POLL_DEADLINE, POLL_INTERVAL]

theorem pollLoop_url_of_not_ready (pollFn : Nat → Nat → PollOutcome) (h : Nat) :
    ∀ fuel job, job.imageUrl = none →
      (pollLoop pollFn h fuel job).status = .Ready ∨
      (pollLoop pollFn h fuel job).imageUrl = none := by
  intro fuel
  induction fuel with
  | zero => intro job hu; right; simpa [pollLoop] using hu
  | succ n ih =>
    intro job hu
    unfold pollLoop
    cases pollFn h job.pollCount with
    | running => exact ih _ (by simpa using hu)
    | ready url => left; rfl
    | moderated msg => right; simpa using hu
    | failure msg => right; simpa using hu

theorem runJob_url_of_not_ready (submitFn : String → String → Except String Nat)
    (pollFn : Nat → Nat → PollOutcome) (baseImage prompt cat : String)
    (hn : (runJob submitFn pollFn baseImage prompt cat).status ≠ .Ready) :
    (runJob submitFn pollFn baseImage prompt cat).imageUrl = none := by
  revert hn
  unfold runJob
  cases submitFn baseImage prompt with
  | error e => intro hn; rfl
  | ok h =>
    intro hn
    rcases pollLoop_url_of_not_ready pollFn h (POLL_DEADLINE / POLL_INTERVAL)
      { trend_category := cat, prompt := prompt, handle := some h,
        status := .Submitted, imageUrl := none, message := none,
        pollCount := 0 } rfl with hr | hu
    · exact absurd hr hn
    · exact hu

theorem runCampaign_jobs_url (collab : Collaborators) (baseImage : String)
    (brief : Brief) (users : List UserProfile) (catalog : List TrendRecord)
    (budgets : Budgets) :
    ∀ j ∈ (runCampaign collab baseImage brief users catalog budgets).jobs,
      j.status ≠ .Ready → j.imageUrl = none := by
  intro j hj
  simp only [runCampaign, List.mem_map] at hj
  obtain ⟨p, -, rfl⟩ := hj
  exact runJob_url_of_not_ready collab.submitFn collab.pollFn baseImage p.2
    p.1.category

theorem mem_generated_images (pu : Nat × List MatchRecord)
    (jobs : List GenerationJob) (e : ImageEntry)
    (he : e ∈ (userResultFor pu jobs).generated_images) :
    ∃ j ∈ jobs, e.status = j.status ∧ e.image_url = j.imageUrl ∧
      e.message = j.message ∧ e.trend_category = j.trend_category := by
  simp only [userResultFor, List.mem_filterMap] at he
  obtain ⟨j, hj, hmatch⟩ := he
  cases hfind : pu.2.find? (fun r => r.trend_category == j.trend_category) with
  | none => rw [hfind] at hmatch; simp at hmatch
  | some r =>
    rw [hfind] at hmatch
    simp only [Option.some.injEq] at hmatch
    exact ⟨j, hj, by rw [← hmatch]; exact ⟨rfl, rfl, rfl, rfl⟩⟩

/-- A user-result list for the `getUserResult` witness. -/
def demoFEList : List Frontend.FEUserResult :=
  [⟨1, [], []⟩, ⟨2, [], []⟩]

/-- A campaign result for the `getUserResult` witness. -/
def demoFECampaign : Frontend.FECampaignResult := ⟨some demoFEList⟩

/-! ### Claim theorems -/

/-- Claim C1: for every campaign run and every input, the number of
image-generation jobs submitted is at most `maxImages` and the number of
prompt-optimization calls is at most `maxTrends` (default 5 each), even when
more trends have matches than the caps allow; the Selector truncates to the
budget before the Optimizer or Image Orchestrator issue any paid call (the
pipeline takes `maxTrends` selected trends before optimizing and `maxImages`
optimized prompts before submitting). -/
theorem C1_budget_caps (collab : Collaborators) (baseImage : String)
    (brief : Brief) (users : List UserProfile) (catalog : List TrendRecord)
    (budgets : Budgets) :
    (runCampaign collab baseImage brief users catalog budgets).api_usage.image_calls ≤
      budgets.maxImages ∧
    (runCampaign collab baseImage brief users catalog budgets).api_usage.optimizer_calls ≤
      budgets.maxTrends ∧
    (runCampaign collab baseImage brief users catalog budgets).jobs.length ≤
      budgets.maxImages ∧
    (runCampaign collab baseImage brief users catalog budgets).selected_trends.length ≤
      budgets.maxTrends ∧
    Budgets.maxTrends {} = MAX_TRENDS_FOR_OPTIMIZATION ∧
    Budgets.maxImages {} = MAX_IMAGES_PER_CAMPAIGN := by
  refine ⟨?_, ?_, ?_, ?_, rfl, rfl⟩ <;>
    simp [runCampaign, runOptimizer, selectTrends]

/-- Claim C2: every submitted GenerationJob reaches exactly one terminal
status (Ready, Moderated, Failed, or TimedOut: the status field is a single
value drawn from the terminal set), and `runCampaign` never returns while any
job is Pending, Submitted, or Polling — every job in the returned result is
terminal. -/
theorem C2_every_job_terminal (collab : Collaborators) (baseImage : String)
    (brief : Brief) (users : List UserProfile) (catalog : List TrendRecord)
    (budgets : Budgets) :
    ∀ j ∈ (runCampaign collab baseImage brief users catalog budgets).jobs,
      j.status.isTerminal = true ∧
      (j.status = .Ready ∨ j.status = .Moderated ∨ j.status = .Failed ∨
        j.status = .TimedOut) := by
  intro j hj
  have ht := runCampaign_mem_jobs_terminal collab baseImage brief users catalog budgets j hj
  exact ⟨ht, terminal_status_cases _ ht⟩

/-- Witness for C2: the all-success demonstration run submits the `T1` job,
which the theorem shows terminal (it is Ready). -/
theorem C2_every_job_terminal_witness :
    demoJobT1 ∈ (runCampaign demoCollabOk "img" demoBrief demoUsers demoCatalog {}).jobs ∧
    (demoJobT1.status.isTerminal = true ∧
      (demoJobT1.status = .Ready ∨ demoJobT1.status = .Moderated ∨
        demoJobT1.status = .Failed ∨ demoJobT1.status = .TimedOut)) :=
  ⟨by decide,
   C2_every_job_terminal demoCollabOk "img" demoBrief demoUsers demoCatalog {}
     demoJobT1 (by decide)⟩

/-- Claim C9: `handleImageUpload file` stores the new file, clears the
previous campaign result and error, and changes no other `App` state. -/
theorem C9_upload_resets_results (file : String) (s : Frontend.AppState) :
    (Frontend.handleImageUpload file s).uploadedImage = some file ∧
    (Frontend.handleImageUpload file s).campaignResult = none ∧
    (Frontend.handleImageUpload file s).error = none ∧
    (Frontend.handleImageUpload file s).activeTab = s.activeTab ∧
    (Frontend.handleImageUpload file s).isLoading = s.isLoading ∧
    (Frontend.handleImageUpload file s).users = s.users ∧
    (Frontend.handleImageUpload file s).productDescription = s.productDescription ∧
    (Frontend.handleImageUpload file s).campaignTheme = s.campaignTheme ∧
    (Frontend.handleImageUpload file s).stylePreset = s.stylePreset :=
  ⟨rfl, rfl, rfl, rfl, rfl, rfl, rfl, rfl, rfl⟩

/-- Claim C10: `handleRemove` clears only the component-local preview and the
file input's value, emits no callback (in particular never `onImageUpload`),
so the parent state — including `uploadedImage` — is unchanged and the Run
Campaign form validates exactly as before. -/
theorem C10_remove_is_local (s : Frontend.ImageUploadState) (p : Frontend.AppState) :
    (Frontend.handleRemove s).1.preview = none ∧
    (Frontend.handleRemove s).1.fileInputValue = "" ∧
    (Frontend.handleRemove s).1.isDragging = s.isDragging ∧
    (Frontend.handleRemove s).2 = [] ∧
    Frontend.applyCallbacks (Frontend.handleRemove s).2 p = p ∧
    Frontend.isFormValid (Frontend.applyCallbacks (Frontend.handleRemove s).2 p).uploadedImage
      (Frontend.applyCallbacks (Frontend.handleRemove s).2 p).productDescription
      (Frontend.applyCallbacks (Frontend.handleRemove s).2 p).campaignTheme =
      Frontend.isFormValid p.uploadedImage p.productDescription p.campaignTheme :=
  ⟨rfl, rfl, rfl, rfl, rfl, rfl⟩

/-- Claim C8: `getUserResult u` returns none when the campaign result is
null or has no results list, otherwise the first element of `results` whose
`user_id` equals `u` (none if there is none); consequently any result it
returns has `user_id` exactly `u`. -/
theorem C8_getUserResult_spec (u : Nat) :
    Frontend.getUserResult none u = none ∧
    (∀ cr : Frontend.FECampaignResult, cr.results = none →
      Frontend.getUserResult (some cr) u = none) ∧
    (∀ (cr : Frontend.FECampaignResult) rs, cr.results = some rs →
      Frontend.getUserResult (some cr) u = rs.find? (fun r => r.user_id == u)) ∧
    (∀ (ocr : Option Frontend.FECampaignResult) r,
      Frontend.getUserResult ocr u = some r → r.user_id = u) := by
  refine ⟨rfl, ?_, ?_, ?_⟩
  · intro cr h
    simp [Frontend.getUserResult, h]
  · intro cr rs h
    simp [Frontend.getUserResult, h]
  · intro ocr r h
    match ocr with
    | none => simp [Frontend.getUserResult] at h
    | some cr =>
      cases hres : cr.results with
      | none => simp [Frontend.getUserResult, hres] at h
      | some rs =>
        simp only [Frontend.getUserResult, hres] at h
        have hp := List.find?_some h
        simpa using hp

/-- Witness for C8: a missing results list yields none, a present list is
searched with `find?`, and the result found for user 2 carries `user_id` 2. -/
theorem C8_getUserResult_spec_witness :
    Frontend.getUserResult (some ⟨none⟩) 2 = none ∧
    Frontend.getUserResult (some demoFECampaign) 2 =
      demoFEList.find? (fun r => r.user_id == 2) ∧
    (⟨2, [], []⟩ : Frontend.FEUserResult).user_id = 2 :=
  ⟨(C8_getUserResult_spec 2).2.1 ⟨none⟩ rfl,
   (C8_getUserResult_spec 2).2.2.1 demoFECampaign demoFEList rfl,
   (C8_getUserResult_spec 2).2.2.2 (some demoFECampaign) ⟨2, [], []⟩ (by decide)⟩

/-- Claim C7: `runCampaign` is synchronous — every job in the returned result
is terminal — and deterministic in content: two runs on the same inputs with
pointwise-identical collaborator responses produce the same CampaignResult. -/
theorem C7_synchronous_deterministic (c₁ c₂ : Collaborators)
    (baseImage : String) (brief : Brief) (users : List UserProfile)
    (catalog : List TrendRecord) (budgets : Budgets)
    (hm : ∀ u, c₁.matchFn u = c₂.matchFn u)
    (ho : ∀ t b, c₁.optFn t b = c₂.optFn t b)
    (hs : ∀ i p, c₁.submitFn i p = c₂.submitFn i p)
    (hp : ∀ h n, c₁.pollFn h n = c₂.pollFn h n) :
    runCampaign c₁ baseImage brief users catalog budgets =
      runCampaign c₂ baseImage brief users catalog budgets ∧
    ∀ j ∈ (runCampaign c₁ baseImage brief users catalog budgets).jobs,
      j.status.isTerminal = true := by
  have hc : c₁ = c₂ := by
    cases c₁
    cases c₂
    simp only [Collaborators.mk.injEq]
    exact ⟨funext fun u => hm u,
           funext fun t => funext fun b => ho t b,
           funext fun i => funext fun p => hs i p,
           funext fun h => funext fun n => hp h n⟩
  exact ⟨by rw [hc],
         runCampaign_mem_jobs_terminal c₁ baseImage brief users catalog budgets⟩

/-- Witness for C7: the demonstration collaborators agree with themselves
pointwise, so the run equals itself and its jobs are terminal. -/
theorem C7_synchronous_deterministic_witness :
    runCampaign demoCollabOk "img" demoBrief demoUsers demoCatalog {} =
      runCampaign demoCollabOk "img" demoBrief demoUsers demoCatalog {} ∧
    ∀ j ∈ (runCampaign demoCollabOk "img" demoBrief demoUsers demoCatalog {}).jobs,
      j.status.isTerminal = true :=
  C7_synchronous_deterministic demoCollabOk demoCollabOk "img" demoBrief
    demoUsers demoCatalog {} (fun _ => rfl) (fun _ _ => rfl) (fun _ _ => rfl)
    (fun _ _ => rfl)

/-- Claim C4: per-unit failures are isolated. A failing match request yields
an empty MatchRecord set for that user only, and matching of the other users
is unchanged when one user's collaborator response changes; Scenario D: with
three selected trends and the optimizer failing on one, the counters show 3
optimizer attempts and 2 image submissions, and only the two surviving trends
get jobs. -/
theorem C4_failure_isolation :
    (∀ (f : UserProfile → Except String (List MatchRecord)) u e,
      f u = .error e → matchedRecords f u = []) ∧
    (∀ (f g : UserProfile → Except String (List MatchRecord))
       (users : List UserProfile) (u₀ : Nat),
      (∀ u, u.id ≠ u₀ → f u = g u) →
      runMatcher f (users.filter (fun u => u.id ≠ u₀)) =
        runMatcher g (users.filter (fun u => u.id ≠ u₀))) ∧
    ((runCampaign demoCollabFailT2 "img" demoBrief demoUsers demoCatalog {}).api_usage.optimizer_calls = 3 ∧
     (runCampaign demoCollabFailT2 "img" demoBrief demoUsers demoCatalog {}).api_usage.image_calls = 2 ∧
     (runCampaign demoCollabFailT2 "img" demoBrief demoUsers demoCatalog {}).jobs.map
       (fun j => j.trend_category) = ["T1", "T3"]) := by
  refine ⟨?_, ?_, by decide, by decide, by decide⟩
  · intro f u e hf
    simp [matchedRecords, hf]
  · intro f g users u₀ hfg
    unfold runMatcher
    apply List.map_congr_left
    intro u hu
    have hne : u.id ≠ u₀ := by
      have := List.of_mem_filter hu
      simpa using this
    simp [matchedRecords, hfg u hne]

/-- Witness for C4: a concretely failing matcher yields an empty record set,
and changing user 2's response leaves the other users' matcher stage
unchanged. -/
theorem C4_failure_isolation_witness :
    matchedRecords (fun _ => Except.error "down") ⟨4, []⟩ = [] ∧
    runMatcher demoMatchFn (demoUsers.filter (fun u => u.id ≠ 2)) =
      runMatcher (fun u => if u.id == 2 then Except.error "down" else demoMatchFn u)
        (demoUsers.filter (fun u => u.id ≠ 2)) :=
  ⟨C4_failure_isolation.1 (fun _ => Except.error "down") ⟨4, []⟩ "down" rfl,
   C4_failure_isolation.2.1 demoMatchFn
     (fun u => if u.id == 2 then Except.error "down" else demoMatchFn u)
     demoUsers 2
     (by
       intro u hu
       have : (u.id == 2) = false := by simpa using hu
       simp [this])⟩

/-- Claim C5: each image job is polled at a fixed 1-second interval against a
fixed 60-second deadline measured from its own submission; when every poll
reports running, each successfully submitted job transitions to TimedOut
exactly when the configured ceiling elapses (elapsed poll time equals the
deadline), and the campaign still completes, the affected users' result
entries carrying status TimedOut instead of an image. -/
theorem C5_timeout_at_deadline (collab : Collaborators) (baseImage : String)
    (brief : Brief) (users : List UserProfile) (catalog : List TrendRecord)
    (budgets : Budgets)
    (hrun : ∀ h n, collab.pollFn h n = .running)
    (hsub : ∀ i p, ∃ h, collab.submitFn i p = .ok h) :
    POLL_INTERVAL = 1 ∧ POLL_DEADLINE = 60 ∧
    (∀ j ∈ (runCampaign collab baseImage brief users catalog budgets).jobs,
      j.status = .TimedOut ∧ elapsedSeconds j = POLL_DEADLINE) ∧
    (∀ r ∈ (runCampaign collab baseImage brief users catalog budgets).results,
      ∀ e ∈ r.generated_images, e.status = .TimedOut ∧ e.image_url = none) := by
  have hjobs : ∀ j ∈ (runCampaign collab baseImage brief users catalog budgets).jobs,
      j.status = .TimedOut ∧ elapsedSeconds j = POLL_DEADLINE := by
    intro j hj
    simp only [runCampaign, List.mem_map] at hj
    obtain ⟨p, _, rfl⟩ := hj
    obtain ⟨h, hok⟩ := hsub baseImage p.2
    exact runJob_running_timesOut collab.submitFn collab.pollFn baseImage p.2
      p.1.category h hrun hok
  refine ⟨rfl, rfl, hjobs, ?_⟩
  intro r hr e he
  have hres := hr
  simp only [runCampaign, List.mem_map] at hres
  obtain ⟨pu, hmem, heq⟩ := hres
  subst heq
  obtain ⟨j, hj, hst, hurl, -, -⟩ := mem_generated_images pu _ e he
  have hjt := hjobs j hj
  have hnr : j.status ≠ .Ready := by simp [hjt.1]
  have hju : j.imageUrl = none :=
    runCampaign_jobs_url collab baseImage brief users catalog budgets j hj hnr
  exact ⟨hst.trans hjt.1, by rw [hurl, hju]⟩

/-- Witness for C5: in the always-running demonstration run the `T1` job
itself times out at exactly the 60-second ceiling, and user 1's entry carries
status TimedOut with no image. -/
theorem C5_timeout_at_deadline_witness :
    demoJobRunT1 ∈ (runCampaign demoCollabRunning "img" demoBrief demoUsersZ demoCatalog {}).jobs ∧
    (demoJobRunT1.status = .TimedOut ∧ elapsedSeconds demoJobRunT1 = POLL_DEADLINE) ∧
    demoUR1 ∈ (runCampaign demoCollabRunning "img" demoBrief demoUsersZ demoCatalog {}).results ∧
    demoEntryT1 ∈ demoUR1.generated_images ∧
    (demoEntryT1.status = .TimedOut ∧ demoEntryT1.image_url = none) :=
  ⟨by decide,
   (C5_timeout_at_deadline demoCollabRunning "img" demoBrief demoUsersZ demoCatalog {}
      (fun _ _ => rfl) (fun _ _ => ⟨7, rfl⟩)).2.2.1 demoJobRunT1 (by decide),
   by decide, by decide,
   (C5_timeout_at_deadline demoCollabRunning "img" demoBrief demoUsersZ demoCatalog {}
      (fun _ _ => rfl) (fun _ _ => ⟨7, rfl⟩)).2.2.2 demoUR1 (by decide)
      demoEntryT1 (by decide)⟩

/-- Claim C6: a user with zero MatchRecords never appears in the
CampaignResult with generated images — their entry has an empty image list —
and any entry whose job did not reach Ready carries no image URL, so the
UserTab renders it as a placeholder showing the terminal status and message
rather than an image. -/
theorem C6_no_images_without_matches (collab : Collaborators)
    (baseImage : String) (brief : Brief) (users : List UserProfile)
    (catalog : List TrendRecord) (budgets : Budgets) :
    (∀ r ∈ (runCampaign collab baseImage brief users catalog budgets).results,
      r.matched_interests = [] → r.generated_images = []) ∧
    (∀ r ∈ (runCampaign collab baseImage brief users catalog budgets).results,
      ∀ e ∈ r.generated_images, e.status ≠ .Ready →
        e.image_url = none ∧
        Frontend.renderAdCard e =
          Frontend.AdCard.placeholder e.trend_category
            (e.message.getD "Image generation in progress...")
            (Frontend.statusText e.status)) := by
  constructor
  · intro r hr hmi
    have hres := hr
    simp only [runCampaign, List.mem_map] at hres
    obtain ⟨pu, -, heq⟩ := hres
    subst heq
    have hpu : pu.2 = [] := hmi
    simp [userResultFor, hpu]
  · intro r hr e he hne
    have hres := hr
    simp only [runCampaign, List.mem_map] at hres
    obtain ⟨pu, -, heq⟩ := hres
    subst heq
    obtain ⟨j, hj, hst, hurl, -, -⟩ := mem_generated_images pu _ e he
    have hjne : j.status ≠ .Ready := by rw [← hst]; exact hne
    have hju : j.imageUrl = none :=
      runCampaign_jobs_url collab baseImage brief users catalog budgets j hj hjne
    have heu : e.image_url = none := by rw [hurl, hju]
    exact ⟨heu, by simp [Frontend.renderAdCard, heu]⟩

/-- Witness for C6: in the always-running demonstration run, user 4 (zero
MatchRecords) has an empty image list, and user 1's TimedOut entry renders as
a placeholder with the terminal status and message. -/
theorem C6_no_images_without_matches_witness :
    (⟨4, [], []⟩ : UserResult) ∈
      (runCampaign demoCollabRunning "img" demoBrief demoUsersZ demoCatalog {}).results ∧
    (⟨4, [], []⟩ : UserResult).generated_images = [] ∧
    (demoEntryT1.image_url = none ∧
      Frontend.renderAdCard demoEntryT1 =
        Frontend.AdCard.placeholder demoEntryT1.trend_category
          (demoEntryT1.message.getD "Image generation in progress...")
          (Frontend.statusText demoEntryT1.status)) :=
  ⟨by decide,
   (C6_no_images_without_matches demoCollabRunning "img" demoBrief demoUsersZ
      demoCatalog {}).1 ⟨4, [], []⟩ (by decide) rfl,
   (C6_no_images_without_matches demoCollabRunning "img" demoBrief demoUsersZ
      demoCatalog {}).2 demoUR1 (by decide) demoEntryT1 (by decide) (by decide)⟩

/-- Candidate `A` (catalog position 0) for the ranking witness. -/
def demoCandA : TrendCand := ⟨"A", 5, 0, 1, []⟩

/-- Candidate `T` (catalog position 1) for the ranking witness. -/
def demoCandT : TrendCand := ⟨"T", 3, 1, 1, []⟩

/-- Candidate `T` after one more user matches it. -/
def demoCandTBig : TrendCand := ⟨"T", 3, 1, 2, []⟩

/-- Candidate `B` (catalog position 2) for the ranking witness. -/
def demoCandB : TrendCand := ⟨"B", 9, 2, 1, []⟩

/-! ### Selector ranking lemmas (for C3) -/

theorem beats_irrefl (a : TrendCand) : ¬ beats a a := by
  unfold beats compositeScore
  omega

theorem rge_not_beats (a b : TrendCand) (h : rge a b) : ¬ beats b a := by
  unfold rge beats sameRankKey compositeScore at *
  omega

theorem beats_of_rge_keyNe (a b : TrendCand) (h : rge a b) (hk : keyNe a b) :
    beats a b := by
  unfold rge beats sameRankKey compositeScore keyNe at *
  omega

theorem beats_mono (y t t₂ : TrendCand) (hk : t₂.catalogIdx = t.catalogIdx)
    (hm : t.matchCount ≤ t₂.matchCount) (hp : t.popularity ≤ t₂.popularity)
    (hb : beats y t₂) : beats y t := by
  unfold beats compositeScore at *
  omega

theorem posKey_sorted_eq_countP :
    ∀ s : List TrendCand, List.Sorted rge s → s.Pairwise keyNe →
      ∀ t ∈ s, posKey s t.catalogIdx = s.countP (fun y => decide (beats y t)) := by
  intro s
  induction s with
  | nil => intro _ _ t ht; simp at ht
  | cons a rest ih =>
    intro hsort hnd t ht
    rw [List.sorted_cons] at hsort
    rw [List.pairwise_cons] at hnd
    rcases List.mem_cons.mp ht with rfl | hmem
    · have hzero : rest.countP (fun y => decide (beats y t)) = 0 := by
        rw [List.countP_eq_zero]
        intro y hy
        simpa using rge_not_beats t y (hsort.1 y hy)
      rw [List.countP_cons, hzero]
      simp [posKey, List.takeWhile_cons, beats_irrefl t]
    · have hne : a.catalogIdx ≠ t.catalogIdx := hnd.1 t hmem
      have hbeat : beats a t := beats_of_rge_keyNe a t (hsort.1 t hmem) hne
      rw [List.countP_cons]
      have hpk : posKey (a :: rest) t.catalogIdx = posKey rest t.catalogIdx + 1 := by
        simp [posKey, List.takeWhile_cons, hne]
      rw [hpk, ih hsort.2 hnd.2 t hmem]
      simp [hbeat]

theorem pairwise_keyNe_replace (pre post : List TrendCand) (t t₂ : TrendCand)
    (hk : t₂.catalogIdx = t.catalogIdx)
    (h : (pre ++ t :: post).Pairwise keyNe) :
    (pre ++ t₂ :: post).Pairwise keyNe := by
  rw [List.pairwise_append] at h ⊢
  obtain ⟨h1, h2, h3⟩ := h
  rw [List.pairwise_cons] at h2 ⊢
  refine ⟨h1, ⟨?_, h2.2⟩, ?_⟩
  · intro y hy
    have hty := h2.1 y hy
    unfold keyNe at hty ⊢
    omega
  · intro x hx y hy
    rcases List.mem_cons.mp hy with rfl | hy2
    · have hxt := h3 x hx t (List.mem_cons_self t post)
      unfold keyNe at hxt ⊢
      omega
    · exact h3 x hx y (List.mem_cons.mpr (Or.inr hy2))

theorem rankOf_eq_countP (cands : List TrendCand) (hnd : cands.Pairwise keyNe)
    (t : TrendCand) (ht : t ∈ cands) :
    rankOf cands t.catalogIdx = cands.countP (fun y => decide (beats y t)) := by
  have hperm : (rankTrends cands).Perm cands := List.perm_insertionSort rge cands
  have hsorted : List.Sorted rge (rankTrends cands) :=
    List.sorted_insertionSort rge cands
  have hnd2 : (rankTrends cands).Pairwise keyNe :=
    (hperm.pairwise_iff (fun hxy => Ne.symm hxy)).mpr hnd
  have hmem : t ∈ rankTrends cands := hperm.mem_iff.mpr ht
  unfold rankOf
  rw [posKey_sorted_eq_countP (rankTrends cands) hsorted hnd2 t hmem]
  exact hperm.countP_eq _

/-- Claim C3: the Selector's ranking is a deterministic pure function of the
aggregated candidates (no randomness), sorted descending by composite score
with ties broken by matchCount then catalog order (`rge` is exactly that
ordering), and monotonic: the composite score never decreases when matchCount
or popularity grows, and bumping one trend's matchCount and/or popularity
(all else equal) never lowers that trend's rank in the ranking. -/
theorem C3_ranking_monotonic :
    (∀ m₁ m₂ p₁ p₂, m₁ ≤ m₂ → p₁ ≤ p₂ →
      compositeScore m₁ p₁ ≤ compositeScore m₂ p₂) ∧
    (∀ cands : List TrendCand, List.Sorted rge (rankTrends cands)) ∧
    (∀ (pre post : List TrendCand) (t t₂ : TrendCand),
      (pre ++ t :: post).Pairwise keyNe →
      t₂.catalogIdx = t.catalogIdx →
      t.matchCount ≤ t₂.matchCount → t.popularity ≤ t₂.popularity →
      rankOf (pre ++ t₂ :: post) t.catalogIdx ≤
        rankOf (pre ++ t :: post) t.catalogIdx) := by
  refine ⟨?_, ?_, ?_⟩
  · intro m₁ m₂ p₁ p₂ hm hp
    unfold compositeScore
    omega
  · intro cands
    exact List.sorted_insertionSort rge cands
  · intro pre post t t₂ hnd hk hm hp
    have hnd2 := pairwise_keyNe_replace pre post t t₂ hk hnd
    have hbig := rankOf_eq_countP (pre ++ t₂ :: post) hnd2 t₂ (by simp)
    have hsmall := rankOf_eq_countP (pre ++ t :: post) hnd t (by simp)
    rw [hk] at hbig
    rw [hbig, hsmall]
    have hpre : pre.countP (fun y => decide (beats y t₂)) ≤
        pre.countP (fun y => decide (beats y t)) :=
      List.countP_mono_left (fun y _ hb =>
        decide_eq_true (beats_mono y t t₂ hk hm hp (of_decide_eq_true hb)))
    have hpost : post.countP (fun y => decide (beats y t₂)) ≤
        post.countP (fun y => decide (beats y t)) :=
      List.countP_mono_left (fun y _ hb =>
        decide_eq_true (beats_mono y t t₂ hk hm hp (of_decide_eq_true hb)))
    have h₂ : decide (beats t₂ t₂) = false := decide_eq_false (beats_irrefl t₂)
    have h₁ : decide (beats t t) = false := decide_eq_false (beats_irrefl t)
    simp only [List.countP_append, List.countP_cons, h₁, h₂]
    simp only [Bool.false_eq_true, if_false]
    omega

/-- Witness for C3: the composite score grows with matchCount, the concrete
three-candidate ranking is sorted, and giving trend `T` one more matching
user moves it from rank 2 to rank 0 — never down. -/
theorem C3_ranking_monotonic_witness :
    compositeScore 1 3 ≤ compositeScore 2 3 ∧
    List.Sorted rge (rankTrends [demoCandA, demoCandT, demoCandB]) ∧
    rankOf [demoCandA, demoCandTBig, demoCandB] demoCandT.catalogIdx ≤
      rankOf [demoCandA, demoCandT, demoCandB] demoCandT.catalogIdx :=
  ⟨C3_ranking_monotonic.1 1 2 3 3 (by decide) (by decide),
   C3_ranking_monotonic.2.1 [demoCandA, demoCandT, demoCandB],
   C3_ranking_monotonic.2.2 [demoCandA] [demoCandB] demoCandT demoCandTBig
     (by decide) (by decide) (by decide) (by decide)⟩

end Ads
